import Mathlib

/-
Verification of the Compound wallet risk-scoring engine
(`compound_risk_scorer.py`).  Python floats are modelled by exact
rationals (reals where a square root occurs); dict-style field access
with string parsing is modelled by `Option`-valued fields: `none`
models a field whose string contents fail to parse (`ValueError` /
`TypeError` in the source), while a missing key is modelled by the
parsed default (`value`→`some 0`, `timeStamp`→`some 0`,
`functionName`→`""`, `isError`→`"0"`, `contractAddress`→`""`,
`tokenDecimal`→`some 18`).  Python `float()` has a third outcome the
finite model cannot carry: an overflowing numeric string such as
`"1e400"` (or `"inf"`) parses to IEEE infinity without raising, and
arithmetic on infinities can then produce NaN.  `PyVal` below extends
the value domain with signed infinities and NaN under the IEEE
absorption rules, and `calculate_volatility_risk_float` re-embeds the
volatility calculator over it; that path exhibits a NaN result, so the
finite `TxRecord` model deliberately covers only inputs whose value
strings parse to finite floats.
-/

/-- A transaction record: one Etherscan dict.  Normal transactions and
token transactions are both plain dicts in the source, so a single
record type carries every field any calculator reads.  `value : Option ℚ`
covers the finite parses only: `none` is a `ValueError`/`TypeError`,
`some q` a finite float; a value string that overflows `float()` to
infinity is outside this record type and is handled by the `PyVal`
model below. -/
structure TxRecord where
  value : Option ℚ
  timeStamp : Option ℤ
  functionName : String
  isError : String
  contractAddress : String
  tokenSymbol : String
  tokenDecimal : Option ℤ
deriving DecidableEq

/-- ASCII lower-casing of a string, modelling Python `str.lower()` on the
(ASCII) function names and addresses this program handles. -/
def strLower (s : String) : String :=
  ⟨s.data.map Char.toLower⟩

/-- Whether the first list is an initial segment of the second. -/
def startsWithChars : List Char → List Char → Bool
  | [], _ => true
  | _ :: _, [] => false
  | a :: as, b :: bs => a == b && startsWithChars as bs

/-- Whether `pat` occurs as a contiguous run inside `hay`. -/
def containsChars (pat : List Char) : List Char → Bool
  | [] => pat.isEmpty
  | c :: rest => startsWithChars pat (c :: rest) || containsChars pat rest

/-- Python substring test `pat in hay`. -/
def strContains (hay pat : String) : Bool :=
  containsChars pat.data hay.data

/-- Insert an integer into a sorted list (ascending). -/
def insertSorted (x : ℤ) : List ℤ → List ℤ
  | [] => [x]
  | y :: ys => if x ≤ y then x :: y :: ys else y :: insertSorted x ys

/-- Ascending sort of a list of integers, modelling `sorted` / `.sort()`. -/
def sortInts (l : List ℤ) : List ℤ :=
  l.foldr insertSorted []

/-- Differences of adjacent elements, modelling `np.diff` and the
`timestamps[i] - timestamps[i-1]` loop. -/
def adjacentDiffs : List ℤ → List ℤ
  | a :: b :: rest => (b - a) :: adjacentDiffs (b :: rest)
  | _ => []

/-- Source line 161: `'mint' in func_name or 'supply' in func_name`
on the lower-cased function name. -/
def isSupplyName (fn : String) : Bool :=
  strContains (strLower fn) "mint" || strContains (strLower fn) "supply"

/-- Source line 163: the `elif 'borrow' in func_name` branch (reached
only when the supply test failed). -/
def isBorrowName (fn : String) : Bool :=
  strContains (strLower fn) "borrow"

/-- `calculate_liquidation_risk` (lines 139-184).  A record whose
`value` field fails to parse is skipped before classification (the
`try`/`except ... continue` wraps both); the accumulated `total_value`
is dead and omitted. -/
def calculate_liquidation_risk (transactions token_transactions : List TxRecord) : ℚ :=
  if transactions = [] ∧ token_transactions = [] then 500
  else
    let all_txs := transactions ++ token_transactions
    let recent := all_txs.drop (all_txs.length - 50)
    let supply_count := recent.countP (fun tx => tx.value.isSome && isSupplyName tx.functionName)
    let borrow_count := recent.countP (fun tx =>
      tx.value.isSome && !isSupplyName tx.functionName && isBorrowName tx.functionName)
    let utilization_ratio : ℚ :=
      if supply_count + borrow_count = 0 then 0.5
      else (borrow_count : ℚ) / ((supply_count : ℚ) + (borrow_count : ℚ) + 1)
    let utilization_score : ℚ := min (utilization_ratio * 1000) 1000
    let frequency_penalty : ℚ :=
      if all_txs.length > 100 then min (((all_txs.length - 100 : ℕ) : ℚ) * 2) 200 else 0
    min (utilization_score + frequency_penalty) 1000

/-- `calculate_concentration_risk` (lines 232-269).  `len(set(...))` of
the lower-cased contract addresses is the length of the deduplicated
list; the `token_values` accumulation is dead and omitted. -/
def calculate_concentration_risk (token_transactions : List TxRecord) : ℚ :=
  if token_transactions = [] then 600
  else
    let num_tokens := ((token_transactions.map (fun tx => strLower tx.contractAddress)).dedup).length
    if num_tokens = 0 then 800
    else if num_tokens = 1 then 700
    else if num_tokens ≤ 3 then 400
    else 200

/-- Source lines 288-289: the risky-function membership test. -/
def isRiskyName (fn : String) : Bool :=
  strContains (strLower fn) "borrow" || strContains (strLower fn) "repay" ||
  strContains (strLower fn) "liquidate" || strContains (strLower fn) "redeem"

/-- `calculate_leverage_risk` (lines 271-298). -/
def calculate_leverage_risk (transactions : List TxRecord) : ℚ :=
  if transactions = [] then 300
  else
    let total_functions := transactions.countP (fun tx => strLower tx.functionName != "")
    let leverage_indicators := transactions.countP (fun tx =>
      strLower tx.functionName != "" && isRiskyName tx.functionName)
    if total_functions = 0 then 400
    else min (((leverage_indicators : ℚ) / (total_functions : ℚ)) * 800) 1000

/-- `calculate_behavioral_risk` (lines 300-353). -/
def calculate_behavioral_risk (transactions token_transactions : List TxRecord) : ℚ :=
  let all_txs := transactions ++ token_transactions
  if all_txs = [] then 400
  else
    let timestamps := (all_txs.filterMap (fun tx => tx.timeStamp)).filter (fun ts => decide (ts > 0))
    let rapid_tx_count := (adjacentDiffs (sortInts timestamps)).countP (fun d => decide (d < 60))
    let flag1 : Bool := decide (rapid_tx_count > 10)
    let failed_count := transactions.countP (fun tx => tx.isError == "1")
    let flag2 : Bool := decide (transactions.length > 0) &&
      decide ((failed_count : ℚ) > (transactions.length : ℚ) * 0.1)
    let large_tx_count := transactions.countP (fun tx =>
      match tx.value with
      | some v => decide (v / 10 ^ 18 > 1000)
      | none => false)
    let flag3 : Bool := decide (large_tx_count > 5)
    let risk_flags : ℕ :=
      (if flag1 then 1 else 0) + (if flag2 then 1 else 0) + (if flag3 then 1 else 0)
    min ((risk_flags : ℚ) * 200) 1000

/-- Mean of a list of rationals, modelling `np.mean` (guards in the
source keep every use on a non-empty list). -/
def meanQ (l : List ℚ) : ℚ :=
  l.sum / l.length

/-- Population variance, the square of `np.std`. -/
def varQ (l : List ℚ) : ℚ :=
  ((l.map (fun x => (x - meanQ l) ^ 2)).sum) / l.length

/-- `np.std`: the square root of the population variance. -/
noncomputable def stdQ (l : List ℚ) : ℝ :=
  Real.sqrt ((varQ l : ℝ))

/-- `calculate_volatility_risk` (lines 186-230) over the finite value
model.  The `try` wraps both field conversions, so a record is kept
only when both `value` and `timeStamp` parse and the converted value is
positive.  Value strings that overflow `float()` to infinity are not
representable here; `calculate_volatility_risk_float` below covers that
path. -/
noncomputable def calculate_volatility_risk (transactions : List TxRecord) : ℝ :=
  if transactions = [] then 300
  else
    let valid := transactions.filterMap (fun tx =>
      match tx.value, tx.timeStamp with
      | some v, some ts => if v / 10 ^ 18 > 0 then some (v / 10 ^ 18, ts) else none
      | _, _ => none)
    let amounts : List ℚ := valid.map Prod.fst
    let timestamps : List ℤ := valid.map Prod.snd
    if amounts.length < 2 then 400
    else
      let cv_amounts : ℝ :=
        if meanQ amounts > 0 then stdQ amounts / ((meanQ amounts : ℚ) : ℝ) else 1
      let time_diffs : List ℚ := (adjacentDiffs (sortInts timestamps)).map (fun d => (d : ℚ))
      let cv_timing : ℝ :=
        if timestamps.length > 1 then
          if meanQ time_diffs > 0 then stdQ time_diffs / ((meanQ time_diffs : ℚ) : ℝ) else 0
        else 0
      min (cv_amounts * 300 + cv_timing * 0.01) 1000

/-- Weight for liquidation risk (source line 36). -/
noncomputable def liquidation_weight : ℝ := 0.30

/-- Weight for volatility risk (source line 37). -/
noncomputable def volatility_weight : ℝ := 0.25

/-- Weight for concentration risk (source line 38). -/
noncomputable def concentration_weight : ℝ := 0.20

/-- Weight for leverage risk (source line 39). -/
noncomputable def leverage_weight : ℝ := 0.15

/-- Weight for behavioral risk (source line 40). -/
noncomputable def behavioral_weight : ℝ := 0.10

/-- Python `round` to an integer: round half to even on the exact value. -/
noncomputable def pyRound (x : ℝ) : ℤ :=
  if x - ⌊x⌋ < 1/2 then ⌊x⌋
  else if 1/2 < x - ⌊x⌋ then ⌊x⌋ + 1
  else if ⌊x⌋ % 2 = 0 then ⌊x⌋ else ⌊x⌋ + 1

/-- Python `round(x, 1)` on the exact value. -/
noncomputable def roundTo1 (x : ℝ) : ℝ :=
  (pyRound (x * 10) : ℝ) / 10

/-- The weighted sum of source lines 376-382. -/
noncomputable def aggregate_score (l v c le b : ℝ) : ℝ :=
  l * liquidation_weight + v * volatility_weight + c * concentration_weight +
    le * leverage_weight + b * behavioral_weight

/-- Source line 385: `final_score = max(0, min(1000, round(final_score)))`. -/
noncomputable def calculate_final_score (l v c le b : ℝ) : ℤ :=
  max 0 (min 1000 (pyRound (aggregate_score l v c le b)))

/-- The `breakdown` dict built at source lines 388-397. -/
structure Breakdown where
  liquidation_risk : ℝ
  volatility_risk : ℝ
  concentration_risk : ℝ
  leverage_risk : ℝ
  behavioral_risk : ℝ
  final_score : ℤ
  tx_count : ℕ
  token_tx_count : ℕ

/-- The pure part of `calculate_wallet_risk_score` (lines 355-399): the
fetch, sleep and printing are external effects, so the scoring takes the
two already-fetched transaction collections. -/
noncomputable def calculate_wallet_risk_score (transactions token_transactions : List TxRecord) :
    ℤ × Breakdown :=
  let liquidation_risk : ℝ := ((calculate_liquidation_risk transactions token_transactions : ℚ) : ℝ)
  let volatility_risk : ℝ := calculate_volatility_risk transactions
  let concentration_risk : ℝ := ((calculate_concentration_risk token_transactions : ℚ) : ℝ)
  let leverage_risk : ℝ := ((calculate_leverage_risk transactions : ℚ) : ℝ)
  let behavioral_risk : ℝ := ((calculate_behavioral_risk transactions token_transactions : ℚ) : ℝ)
  let final_score := calculate_final_score liquidation_risk volatility_risk
    concentration_risk leverage_risk behavioral_risk
  (final_score,
    ⟨roundTo1 liquidation_risk, roundTo1 volatility_risk, roundTo1 concentration_risk,
     roundTo1 leverage_risk, roundTo1 behavioral_risk, final_score,
     transactions.length, token_transactions.length⟩)

/-- One row of the `results` list built by `score_wallet_list`
(lines 415-425 and 442-452). -/
structure WalletResult where
  wallet_id : String
  score : ℤ
  liquidation_risk : ℝ
  volatility_risk : ℝ
  concentration_risk : ℝ
  leverage_risk : ℝ
  behavioral_risk : ℝ
  tx_count : ℕ
  token_tx_count : ℕ

/-- The body of the per-wallet `try`/`except` in `score_wallet_list`
(lines 411-452).  `fetch` abstracts the whole fallible per-wallet
sequence (the Etherscan calls inside `calculate_wallet_risk_score`):
`some` carries the two fetched collections, `none` models an unexpected
exception raised anywhere in that sequence, answered by the uniform
degraded record of lines 442-452. -/
noncomputable def scoreOneWallet (fetch : String → Option (List TxRecord × List TxRecord))
    (wallet : String) : WalletResult :=
  match fetch wallet with
  | some (transactions, token_transactions) =>
      let r := calculate_wallet_risk_score transactions token_transactions
      ⟨wallet, r.1, r.2.liquidation_risk, r.2.volatility_risk, r.2.concentration_risk,
       r.2.leverage_risk, r.2.behavioral_risk, r.2.tx_count, r.2.token_tx_count⟩
  | none => ⟨wallet, 500, 500, 500, 500, 500, 500, 0, 0⟩

/-- `score_wallet_list` (lines 401-457): one result per wallet, in input
order; printing and timing are external effects and the resulting
DataFrame is the row list. -/
noncomputable def score_wallet_list (fetch : String → Option (List TxRecord × List TxRecord))
    (wallet_addresses : List String) : List WalletResult :=
  wallet_addresses.map (scoreOneWallet fetch)

/-- Claim-side supply count for the liquidation formula: records of the
window whose value parses and whose lower-cased function name contains
"mint" or "supply" (spec 4.1; per spec 7 a record with a malformed
`value` field is skipped). -/
def spec_supply_count (window : List TxRecord) : ℕ :=
  window.countP (fun tx => tx.value.isSome && isSupplyName tx.functionName)

/-- Claim-side borrow count: parseable records not classified as supply
whose lower-cased function name contains "borrow". -/
def spec_borrow_count (window : List TxRecord) : ℕ :=
  window.countP (fun tx =>
    tx.value.isSome && !isSupplyName tx.functionName && isBorrowName tx.functionName)

/-- The closed liquidation formula exactly as claim C5 states it:
classification over the last 50 entries of the concatenation, frequency
penalty `min(max(0, total - 100) * 2, 200)` over the full count. -/
def spec_liquidation_formula (transactions token_transactions : List TxRecord) : ℚ :=
  let all := transactions ++ token_transactions
  let window := all.drop (all.length - 50)
  let s := spec_supply_count window
  let b := spec_borrow_count window
  let utilization : ℚ := if s + b = 0 then 0.5 else (b : ℚ) / ((s : ℚ) + (b : ℚ) + 1)
  min (min (utilization * 1000) 1000 + min (max 0 ((all.length : ℚ) - 100) * 2) 200) 1000

/-- Claim C6 flag 1: more than ten adjacent gaps under 60 among the
sorted valid positive timestamps of the concatenation. -/
def behavioral_flag1 (transactions token_transactions : List TxRecord) : Bool :=
  decide (((adjacentDiffs (sortInts
      (((transactions ++ token_transactions).filterMap (fun tx => tx.timeStamp)).filter
        (fun ts => decide (ts > 0))))).countP (fun d => decide (d < 60))) > 10)

/-- Claim C6 flag 2: failed normal transactions exceed 10 percent of the
normal-transaction count. -/
def behavioral_flag2 (transactions : List TxRecord) : Bool :=
  decide (((transactions.countP (fun tx => tx.isError == "1") : ℚ)) >
    (transactions.length : ℚ) * 0.1)

/-- Claim C6 flag 3: more than five normal transactions whose converted
value exceeds 1000. -/
def behavioral_flag3 (transactions : List TxRecord) : Bool :=
  decide ((transactions.countP (fun tx =>
    match tx.value with
    | some v => decide (v / 10 ^ 18 > 1000)
    | none => false)) > 5)

/-- Number of triggered behavioral flags, as claim C6 counts them. -/
def numFlags (transactions token_transactions : List TxRecord) : ℕ :=
  (if behavioral_flag1 transactions token_transactions then 1 else 0) +
  (if behavioral_flag2 transactions then 1 else 0) +
  (if behavioral_flag3 transactions then 1 else 0)

/-- The step function of claim C7 on the number of unique tokens. -/
def concentration_step (n : ℕ) : ℚ :=
  if n = 0 then 800 else if n = 1 then 700 else if n ≤ 3 then 400 else 200

/-- Number of unique lower-cased contract addresses. -/
def unique_token_count (token_transactions : List TxRecord) : ℕ :=
  ((token_transactions.map (fun tx => strLower tx.contractAddress)).dedup).length

/-- A concrete record with every field at its parsed default, used to
instantiate hypotheses of universally quantified theorems. -/
def sampleTx : TxRecord :=
  ⟨some 0, some 0, "", "0", "", "", some 18⟩

/-- A Python float value as `float()` can actually produce it: a finite
value (kept exact, since finite-precision rounding plays no role in the
paths proved about), positive or negative infinity (the overflow parse
of strings like `"1e400"` or `"inf"`, which raises no exception), or
NaN.  Arithmetic below follows the IEEE absorption rules the source
relies on (`inf - inf = nan`, `nan` propagates, comparisons with `nan`
are false). -/
inductive PyVal where
  | fin (x : ℝ)
  | pinf
  | ninf
  | nan

/-- IEEE negation. -/
noncomputable def pyNeg : PyVal → PyVal
  | .nan => .nan
  | .pinf => .ninf
  | .ninf => .pinf
  | .fin x => .fin (-x)

/-- IEEE addition: NaN propagates, opposite infinities give NaN, an
infinity absorbs any finite value, finite values add exactly. -/
noncomputable def pyAdd : PyVal → PyVal → PyVal
  | .nan, _ => .nan
  | _, .nan => .nan
  | .pinf, .ninf => .nan
  | .ninf, .pinf => .nan
  | .pinf, _ => .pinf
  | .ninf, _ => .ninf
  | .fin _, .pinf => .pinf
  | .fin _, .ninf => .ninf
  | .fin x, .fin y => .fin (x + y)

/-- IEEE subtraction. -/
noncomputable def pySub (a b : PyVal) : PyVal :=
  pyAdd a (pyNeg b)

/-- IEEE multiplication: NaN propagates, zero times an infinity is NaN,
signs multiply, finite values multiply exactly. -/
noncomputable def pyMul : PyVal → PyVal → PyVal
  | .nan, _ => .nan
  | _, .nan => .nan
  | .pinf, .pinf => .pinf
  | .pinf, .ninf => .ninf
  | .ninf, .pinf => .ninf
  | .ninf, .ninf => .pinf
  | .pinf, .fin y => if 0 < y then .pinf else if y < 0 then .ninf else .nan
  | .fin x, .pinf => if 0 < x then .pinf else if x < 0 then .ninf else .nan
  | .ninf, .fin y => if 0 < y then .ninf else if y < 0 then .pinf else .nan
  | .fin x, .ninf => if 0 < x then .ninf else if x < 0 then .pinf else .nan
  | .fin x, .fin y => .fin (x * y)

/-- IEEE division: NaN propagates, infinity over infinity is NaN, a
finite value over an infinity is zero, an infinity over a finite value
keeps the combined sign, finite values divide exactly.  A zero divisor
yields NaN here; in Python that case raises `ZeroDivisionError`, and no
guarded path of the source reaches it. -/
noncomputable def pyDiv : PyVal → PyVal → PyVal
  | .nan, _ => .nan
  | _, .nan => .nan
  | .pinf, .pinf => .nan
  | .pinf, .ninf => .nan
  | .ninf, .pinf => .nan
  | .ninf, .ninf => .nan
  | .pinf, .fin y => if 0 < y then .pinf else if y < 0 then .ninf else .nan
  | .ninf, .fin y => if 0 < y then .ninf else if y < 0 then .pinf else .nan
  | .fin _, .pinf => .fin 0
  | .fin _, .ninf => .fin 0
  | .fin x, .fin y => if y = 0 then .nan else .fin (x / y)

/-- IEEE square root, as `np.sqrt` behaves inside `np.std`: NaN and
negative inputs give NaN, infinity gives infinity. -/
noncomputable def pySqrt : PyVal → PyVal
  | .nan => .nan
  | .pinf => .pinf
  | .ninf => .nan
  | .fin x => if x < 0 then .nan else .fin (Real.sqrt x)

/-- IEEE strict comparison: any comparison against NaN is false. -/
noncomputable def pyLt : PyVal → PyVal → Bool
  | .nan, _ => false
  | _, .nan => false
  | .fin x, .fin y => decide (x < y)
  | .fin _, .pinf => true
  | .ninf, .fin _ => true
  | .ninf, .pinf => true
  | .pinf, _ => false
  | _, .ninf => false

/-- IEEE non-strict comparison: any comparison against NaN is false. -/
noncomputable def pyLe : PyVal → PyVal → Bool
  | .nan, _ => false
  | _, .nan => false
  | .fin x, .fin y => decide (x ≤ y)
  | .fin _, .pinf => true
  | .ninf, _ => true
  | .pinf, .pinf => true
  | .pinf, _ => false
  | .fin _, .ninf => false

/-- Python `min(a, b)`: returns `b` when `b < a`, else `a`, so a NaN
first argument is returned unchanged. -/
noncomputable def pyMin (a b : PyVal) : PyVal :=
  if pyLt b a then b else a

/-- Summation of a list of float values, left to right from zero. -/
noncomputable def pySum (l : List PyVal) : PyVal :=
  l.foldl pyAdd (.fin 0)

/-- `np.mean` over float values: sum divided by length. -/
noncomputable def pyMeanF (l : List PyVal) : PyVal :=
  pyDiv (pySum l) (.fin (l.length : ℝ))

/-- `np.std` over float values: the square root of the mean squared
deviation.  On a list of equal infinities the deviations are
`inf - inf = nan`, so the result is NaN, exactly as numpy computes. -/
noncomputable def pyStdF (l : List PyVal) : PyVal :=
  pySqrt (pyMeanF (l.map (fun x => pyMul (pySub x (pyMeanF l)) (pySub x (pyMeanF l)))))

/-- A normal transaction as the volatility calculator reads it, with the
value field carrying the full `float()` outcome: `none` for
`ValueError`/`TypeError`, `some v` for a finite or infinite parse. -/
structure FloatTx where
  value : Option PyVal
  timeStamp : Option ℤ

/-- `calculate_volatility_risk` (lines 186-230) over the full float
value domain, including overflow parses: the same control flow as the
finite embedding, with every arithmetic step under IEEE semantics. -/
noncomputable def calculate_volatility_risk_float (transactions : List FloatTx) : PyVal :=
  if transactions.isEmpty then .fin 300
  else
    let valid := transactions.filterMap (fun tx =>
      match tx.value, tx.timeStamp with
      | some v, some ts =>
          let v18 := pyDiv v (.fin (10 ^ 18))
          if pyLt (.fin 0) v18 then some (v18, ts) else none
      | _, _ => none)
    let amounts := valid.map Prod.fst
    let timestamps := valid.map Prod.snd
    if amounts.length < 2 then .fin 400
    else
      let cv_amounts :=
        if pyLt (.fin 0) (pyMeanF amounts) then pyDiv (pyStdF amounts) (pyMeanF amounts)
        else .fin 1
      let time_diffs := (adjacentDiffs (sortInts timestamps)).map (fun d => PyVal.fin (d : ℝ))
      let cv_timing :=
        if timestamps.length > 1 then
          if pyLt (.fin 0) (pyMeanF time_diffs) then
            pyDiv (pyStdF time_diffs) (pyMeanF time_diffs)
          else .fin 0
        else .fin 0
      pyMin (pyAdd (pyMul cv_amounts (.fin 300)) (pyMul cv_timing (.fin 0.01))) (.fin 1000)

theorem pyRound_intCast (n : ℤ) : pyRound (n : ℝ) = n := by
  unfold pyRound
  rw [Int.floor_intCast]
  norm_num

theorem pyRound_ge_floor (x : ℝ) : ⌊x⌋ ≤ pyRound x := by
  unfold pyRound
  split_ifs <;> omega

theorem pyRound_le_floor_add_one (x : ℝ) : pyRound x ≤ ⌊x⌋ + 1 := by
  unfold pyRound
  split_ifs <;> omega

theorem pyRound_mono {x y : ℝ} (h : x ≤ y) : pyRound x ≤ pyRound y := by
  have hf : ⌊x⌋ ≤ ⌊y⌋ := Int.floor_le_floor h
  rcases lt_or_eq_of_le hf with hlt | heq
  · calc pyRound x ≤ ⌊x⌋ + 1 := pyRound_le_floor_add_one x
      _ ≤ ⌊y⌋ := by omega
      _ ≤ pyRound y := pyRound_ge_floor y
  · unfold pyRound
    rw [← heq]
    split_ifs <;> first | omega | linarith

theorem clamp_pyRound_comm (x : ℝ) :
    max 0 (min 1000 (pyRound x)) = pyRound (max 0 (min 1000 x)) := by
  have h0 : pyRound (0 : ℝ) = 0 := by simpa using pyRound_intCast 0
  have h1000 : pyRound (1000 : ℝ) = 1000 := by simpa using pyRound_intCast 1000
  rcases le_total x 0 with hx0 | hx0
  · have hmin : min (1000 : ℝ) x = x := min_eq_right (by linarith)
    rw [hmin, max_eq_left hx0, h0]
    have hr : pyRound x ≤ 0 := by
      calc pyRound x ≤ pyRound (0 : ℝ) := pyRound_mono hx0
        _ = 0 := h0
    rw [min_eq_right (by omega : pyRound x ≤ (1000 : ℤ))]
    exact max_eq_left hr
  · rcases le_total x 1000 with hx1 | hx1
    · rw [min_eq_right hx1, max_eq_right hx0]
      have hr0 : (0 : ℤ) ≤ pyRound x := by
        have := pyRound_mono hx0
        rwa [h0] at this
      have hr1 : pyRound x ≤ 1000 := by
        have := pyRound_mono hx1
        rwa [h1000] at this
      rw [min_eq_right hr1]
      exact max_eq_right hr0
    · rw [min_eq_left hx1, max_eq_right (by norm_num : (0 : ℝ) ≤ 1000), h1000]
      have hr : (1000 : ℤ) ≤ pyRound x := by
        have := pyRound_mono hx1
        rwa [h1000] at this
      rw [min_eq_left hr]
      norm_num

/-- Claim C4: the aggregator uses the fixed weights 0.30, 0.25, 0.20,
0.15, 0.10, which sum to exactly 1, and for every five sub-scores the
composite equals the rounded clamp of the weighted sum (the source
clamps after rounding; the two orders coincide). -/
theorem claim_C4_weights_and_aggregation :
    liquidation_weight + volatility_weight + concentration_weight + leverage_weight +
      behavioral_weight = 1 ∧
    ∀ l v c le b : ℝ,
      calculate_final_score l v c le b =
        pyRound (max 0 (min 1000 (aggregate_score l v c le b))) := by
  constructor
  · unfold liquidation_weight volatility_weight concentration_weight leverage_weight
      behavioral_weight
    norm_num
  · intro l v c le b
    unfold calculate_final_score
    exact clamp_pyRound_comm _

/-- Claim C9: scoring is deterministic, a pure function of the two
transaction collections and the fixed weights: equal inputs give an
equal score and breakdown. -/
theorem claim_C9_determinism (t₁ k₁ t₂ k₂ : List TxRecord)
    (ht : t₁ = t₂) (hk : k₁ = k₂) :
    calculate_wallet_risk_score t₁ k₁ = calculate_wallet_risk_score t₂ k₂ := by
  rw [ht, hk]

/-- Witness for claim C9 at a concrete input. -/
theorem claim_C9_determinism_witness :
    calculate_wallet_risk_score [sampleTx] [] = calculate_wallet_risk_score [sampleTx] [] :=
  claim_C9_determinism [sampleTx] [] [sampleTx] [] rfl rfl

/-- Claim C2: the batch produces exactly one record per input wallet, in
input order, each a function of that wallet alone; a wallet whose
per-wallet sequence fails gets the uniform degraded record and the run
never aborts (the orchestrator is total). -/
theorem claim_C2_batch_order_and_fallback
    (fetch : String → Option (List TxRecord × List TxRecord)) (wallets : List String) :
    (score_wallet_list fetch wallets).length = wallets.length ∧
    ∀ (i : ℕ) (w : String), wallets[i]? = some w →
      (score_wallet_list fetch wallets)[i]? = some (scoreOneWallet fetch w) ∧
      (fetch w = none →
        (score_wallet_list fetch wallets)[i]? =
          some ⟨w, 500, 500, 500, 500, 500, 500, 0, 0⟩) := by
  refine ⟨by simp [score_wallet_list], ?_⟩
  intro i w hw
  have hmap : (score_wallet_list fetch wallets)[i]? = some (scoreOneWallet fetch w) := by
    simp [score_wallet_list, List.getElem?_map, hw]
  refine ⟨hmap, fun hf => ?_⟩
  rw [hmap]
  unfold scoreOneWallet
  rw [hf]

/-- Witness for claim C2: a one-wallet batch whose fetch raises yields
the degraded record in place. -/
theorem claim_C2_batch_order_and_fallback_witness :
    (score_wallet_list (fun _ => none) ["A"])[0]? =
      some ⟨"A", 500, 500, 500, 500, 500, 500, 0, 0⟩ :=
  ((claim_C2_batch_order_and_fallback (fun _ => none) ["A"]).2 0 "A" rfl).2 rfl

/-- Claim C7: concentration risk is 600 on the empty token list,
otherwise the step function of the number of unique lower-cased
contract addresses, and the 800 branch for zero unique addresses is
unreachable on every input. -/
theorem claim_C7_concentration_step (token_transactions : List TxRecord) :
    (token_transactions = [] → calculate_concentration_risk token_transactions = 600) ∧
    (token_transactions ≠ [] →
      calculate_concentration_risk token_transactions =
        concentration_step (unique_token_count token_transactions)) ∧
    calculate_concentration_risk token_transactions ≠ 800 := by
  rcases token_transactions with _ | ⟨a, l⟩
  · exact ⟨fun _ => by decide, fun h => absurd rfl h, by decide⟩
  · have hn : unique_token_count (a :: l) ≠ 0 := by
      unfold unique_token_count
      simp [List.length_eq_zero, List.dedup_eq_nil]
    have hstep : calculate_concentration_risk (a :: l) =
        concentration_step (unique_token_count (a :: l)) := by
      simp [calculate_concentration_risk, concentration_step, unique_token_count]
    refine ⟨fun h => by simp at h, fun _ => hstep, ?_⟩
    rw [hstep]
    unfold concentration_step
    rw [if_neg hn]
    split_ifs <;> norm_num

/-- Witness for claim C7 at a concrete non-empty token list. -/
theorem claim_C7_concentration_step_witness :
    calculate_concentration_risk [sampleTx] =
      concentration_step (unique_token_count [sampleTx]) :=
  (claim_C7_concentration_step [sampleTx]).2.1 (by decide)

/-- Claim C8: a non-empty transaction list in which every function name
is empty scores leverage 400 whatever its length, and the empty list
scores 300. -/
theorem claim_C8_leverage_defaults :
    (∀ transactions : List TxRecord, transactions ≠ [] →
      (∀ tx ∈ transactions, tx.functionName = "") →
      calculate_leverage_risk transactions = 400) ∧
    calculate_leverage_risk [] = 300 := by
  constructor
  · intro txs hne hall
    have htot : txs.countP (fun tx => strLower tx.functionName != "") = 0 := by
      rw [List.countP_eq_zero]
      intro tx hm
      rw [hall tx hm]
      decide
    simp only [calculate_leverage_risk]
    rw [if_neg hne, htot]
    norm_num
  · decide

/-- Witness for claim C8 at a concrete one-element list with an empty
function name. -/
theorem claim_C8_leverage_defaults_witness :
    calculate_leverage_risk [sampleTx] = 400 :=
  claim_C8_leverage_defaults.1 [sampleTx] (by decide) (by decide)

/-- Claim C10: leverage risk never exceeds 800: the risky count is at
most the identifiable-function count, so the ratio is at most 1, and
the defaults 300 and 400 are below 800. -/
theorem claim_C10_leverage_le_800 (transactions : List TxRecord) :
    calculate_leverage_risk transactions ≤ 800 := by
  simp only [calculate_leverage_risk]
  split_ifs with h1 h2
  · norm_num
  · norm_num
  · have hle : transactions.countP
        (fun tx => strLower tx.functionName != "" && isRiskyName tx.functionName) ≤
        transactions.countP (fun tx => strLower tx.functionName != "") := by
      refine List.countP_mono_left ?_
      intro x _ hx
      simp only [Bool.and_eq_true] at hx
      exact hx.1
    have htpos : (0 : ℚ) <
        (transactions.countP (fun tx => strLower tx.functionName != "") : ℚ) := by
      have := Nat.pos_of_ne_zero h2
      exact_mod_cast this
    have hratio : (transactions.countP
        (fun tx => strLower tx.functionName != "" && isRiskyName tx.functionName) : ℚ) /
        (transactions.countP (fun tx => strLower tx.functionName != "") : ℚ) ≤ 1 := by
      rw [div_le_one htpos]
      exact_mod_cast hle
    calc min ((transactions.countP
          (fun tx => strLower tx.functionName != "" && isRiskyName tx.functionName) : ℚ) /
          (transactions.countP (fun tx => strLower tx.functionName != "") : ℚ) * 800) 1000 ≤
        (transactions.countP
          (fun tx => strLower tx.functionName != "" && isRiskyName tx.functionName) : ℚ) /
          (transactions.countP (fun tx => strLower tx.functionName != "") : ℚ) * 800 :=
        min_le_left _ _
      _ ≤ 1 * 800 := by
        exact mul_le_mul_of_nonneg_right hratio (by norm_num)
      _ ≤ 800 := by norm_num

/-- Claim C1: on empty inputs the five calculators return their
documented defaults 500, 300, 600, 300, 400 and the composite is 430. -/
theorem claim_C1_empty_scenario :
    calculate_liquidation_risk [] [] = 500 ∧
    calculate_volatility_risk [] = 300 ∧
    calculate_concentration_risk [] = 600 ∧
    calculate_leverage_risk [] = 300 ∧
    calculate_behavioral_risk [] [] = 400 ∧
    (calculate_wallet_risk_score [] []).1 = 430 := by
  have hl : calculate_liquidation_risk [] [] = 500 := by decide
  have hv : calculate_volatility_risk [] = 300 := by simp [calculate_volatility_risk]
  have hc : calculate_concentration_risk [] = 600 := by decide
  have hle : calculate_leverage_risk [] = 300 := by decide
  have hb : calculate_behavioral_risk [] [] = 400 := by decide
  refine ⟨hl, hv, hc, hle, hb, ?_⟩
  show calculate_final_score ((calculate_liquidation_risk [] [] : ℚ) : ℝ)
      (calculate_volatility_risk [])
      ((calculate_concentration_risk [] : ℚ) : ℝ)
      ((calculate_leverage_risk [] : ℚ) : ℝ)
      ((calculate_behavioral_risk [] [] : ℚ) : ℝ) = 430
  rw [hl, hv, hc, hle, hb]
  unfold calculate_final_score aggregate_score liquidation_weight volatility_weight
    concentration_weight leverage_weight behavioral_weight
  norm_num
  have hcast : ((430 : ℤ) : ℝ) = (430 : ℝ) := by norm_num
  rw [← hcast, pyRound_intCast]
  decide

/-- The two forms of the frequency penalty coincide: the guarded
natural-number form of the source and the clamped rational form of the
spec. -/
theorem freq_penalty_eq (n : ℕ) :
    (if n > 100 then min (((n - 100 : ℕ) : ℚ) * 2) 200 else (0 : ℚ)) =
    min (max 0 ((n : ℚ) - 100) * 2) 200 := by
  rcases Nat.lt_or_ge 100 n with h | h
  · rw [if_pos h, Nat.cast_sub h.le]
    have h100 : (100 : ℚ) ≤ (n : ℚ) := by exact_mod_cast h.le
    rw [max_eq_right (by linarith : (0 : ℚ) ≤ (n : ℚ) - 100)]
    norm_num
  · rw [if_neg (by omega)]
    have h100 : (n : ℚ) ≤ 100 := by exact_mod_cast h
    rw [max_eq_left (by linarith : (n : ℚ) - 100 ≤ (0 : ℚ))]
    norm_num

/-- Claim C5: on any non-empty concatenation the liquidation risk equals
the closed formula of the spec: classification over the last 50 entries,
utilization with the `+1` denominator, neutral 0.5 when nothing was
classified, and the frequency penalty over the full combined count. -/
theorem claim_C5_liquidation_refines (transactions token_transactions : List TxRecord)
    (hne : transactions ++ token_transactions ≠ []) :
    calculate_liquidation_risk transactions token_transactions =
      spec_liquidation_formula transactions token_transactions := by
  have hcase : ¬(transactions = [] ∧ token_transactions = []) := by
    rw [← List.append_eq_nil]
    exact hne
  simp only [calculate_liquidation_risk, spec_liquidation_formula, spec_supply_count,
    spec_borrow_count, if_neg hcase]
  rw [freq_penalty_eq]

/-- Witness for claim C5 at a concrete one-element list. -/
theorem claim_C5_liquidation_refines_witness :
    calculate_liquidation_risk [sampleTx] [] = spec_liquidation_formula [sampleTx] [] :=
  claim_C5_liquidation_refines [sampleTx] [] (by decide)

theorem behavioral_flag2_iff (transactions : List TxRecord) :
    (decide (transactions.length > 0) &&
      decide ((transactions.countP (fun tx => tx.isError == "1") : ℚ) >
        (transactions.length : ℚ) * 0.1)) = behavioral_flag2 transactions := by
  unfold behavioral_flag2
  rcases Nat.eq_zero_or_pos transactions.length with h | h
  · have hc : transactions.countP (fun tx => tx.isError == "1") = 0 := by
      have := List.countP_le_length (p := fun tx => tx.isError == "1") (l := transactions)
      omega
    rw [h, hc]
    simp
  · rw [decide_eq_true h, Bool.true_and]

theorem min_200_cast (n : ℕ) (h : n ≤ 3) : min ((n : ℚ) * 200) 1000 = 200 * (n : ℚ) := by
  have h3 : (n : ℚ) ≤ 3 := by exact_mod_cast h
  rw [min_eq_left (by linarith)]
  ring

theorem behavioral_eq_200_numFlags (transactions token_transactions : List TxRecord)
    (hne : transactions ++ token_transactions ≠ []) :
    calculate_behavioral_risk transactions token_transactions =
      200 * (numFlags transactions token_transactions : ℚ) := by
  simp only [calculate_behavioral_risk, if_neg hne]
  unfold numFlags
  rw [← behavioral_flag2_iff]
  unfold behavioral_flag1 behavioral_flag3
  exact min_200_cast _ (by split_ifs <;> norm_num)

theorem behavioral_le_600 (transactions token_transactions : List TxRecord) :
    calculate_behavioral_risk transactions token_transactions ≤ 600 := by
  rcases eq_or_ne (transactions ++ token_transactions) [] with h | h
  · simp only [calculate_behavioral_risk, if_pos h]
    norm_num
  · rw [behavioral_eq_200_numFlags transactions token_transactions h]
    have h3 : numFlags transactions token_transactions ≤ 3 := by
      unfold numFlags
      split_ifs <;> norm_num
    have h3q : (numFlags transactions token_transactions : ℚ) ≤ 3 := by exact_mod_cast h3
    linarith

/-- Claim C6 as amended: behavioral risk is at most 600 on every input,
and on every non-empty concatenation it equals 200 times the number of
triggered flags (the empty input instead returns the default 400). -/
theorem claim_C6_behavioral_amended (transactions token_transactions : List TxRecord) :
    calculate_behavioral_risk transactions token_transactions ≤ 600 ∧
    (transactions ++ token_transactions ≠ [] →
      calculate_behavioral_risk transactions token_transactions =
        200 * (numFlags transactions token_transactions : ℚ)) :=
  ⟨behavioral_le_600 transactions token_transactions,
   fun h => behavioral_eq_200_numFlags transactions token_transactions h⟩

/-- Witness for the amended claim C6 at a concrete non-empty input. -/
theorem claim_C6_behavioral_amended_witness :
    calculate_behavioral_risk [sampleTx] [] = 200 * (numFlags [sampleTx] [] : ℚ) :=
  (claim_C6_behavioral_amended [sampleTx] []).2 (by decide)

/-- Counterexample to claim C6 as stated: on the empty pair of inputs the
calculator returns 400, while no flag triggers, so the result is not
200 times the number of triggered flags. -/
theorem claim_C6_counterexample :
    calculate_behavioral_risk [] [] = 400 ∧
    calculate_behavioral_risk [] [] ≠ 200 * (numFlags [] [] : ℚ) := by
  have h400 : calculate_behavioral_risk [] [] = 400 := by decide
  have hflags : numFlags [] [] = 0 := by
    simp [numFlags, behavioral_flag1, behavioral_flag2, behavioral_flag3, sortInts,
      adjacentDiffs]
  refine ⟨h400, ?_⟩
  rw [h400, hflags]
  norm_num

theorem min_add_bounds (u f : ℚ) (hu : 0 ≤ u) (hf : 0 ≤ f) :
    0 ≤ min (u + f) 1000 ∧ min (u + f) 1000 ≤ 1000 :=
  ⟨le_min (by linarith) (by norm_num), min_le_right _ _⟩

theorem liquidation_bounds (transactions token_transactions : List TxRecord) :
    0 ≤ calculate_liquidation_risk transactions token_transactions ∧
    calculate_liquidation_risk transactions token_transactions ≤ 1000 := by
  simp only [calculate_liquidation_risk]
  split_ifs
  · norm_num
  · exact min_add_bounds _ _ (le_min (by norm_num) (by norm_num))
      (le_min (by positivity) (by norm_num))
  · exact min_add_bounds _ _ (le_min (by norm_num) (by norm_num)) le_rfl
  · exact min_add_bounds _ _ (le_min (by positivity) (by norm_num))
      (le_min (by positivity) (by norm_num))
  · exact min_add_bounds _ _ (le_min (by positivity) (by norm_num)) le_rfl

theorem vol_min_bounds (a b : ℝ) (ha : 0 ≤ a) (hb : 0 ≤ b) :
    0 ≤ min (a * 300 + b * 0.01) 1000 ∧ min (a * 300 + b * 0.01) 1000 ≤ 1000 :=
  ⟨le_min (add_nonneg (mul_nonneg ha (by norm_num)) (mul_nonneg hb (by norm_num)))
      (by norm_num),
   min_le_right _ _⟩

theorem stdQ_div_nonneg (l : List ℚ) (h : meanQ l > 0) :
    0 ≤ stdQ l / ((meanQ l : ℚ) : ℝ) :=
  div_nonneg (Real.sqrt_nonneg _) (by exact_mod_cast h.le)

theorem volatility_bounds (transactions : List TxRecord) :
    0 ≤ calculate_volatility_risk transactions ∧
    calculate_volatility_risk transactions ≤ 1000 := by
  simp only [calculate_volatility_risk]
  split_ifs with h1 h2 h3 h4 h5 h6 h7
  · norm_num
  · norm_num
  · exact vol_min_bounds _ _ (stdQ_div_nonneg _ h3) (stdQ_div_nonneg _ h5)
  · exact vol_min_bounds _ _ (stdQ_div_nonneg _ h3) le_rfl
  · exact vol_min_bounds _ _ (stdQ_div_nonneg _ h3) le_rfl
  · exact vol_min_bounds _ _ zero_le_one (stdQ_div_nonneg _ h7)
  · exact vol_min_bounds _ _ zero_le_one le_rfl
  · exact vol_min_bounds _ _ zero_le_one le_rfl

theorem concentration_bounds (token_transactions : List TxRecord) :
    0 ≤ calculate_concentration_risk token_transactions ∧
    calculate_concentration_risk token_transactions ≤ 1000 := by
  simp only [calculate_concentration_risk]
  split_ifs <;> norm_num

theorem leverage_bounds (transactions : List TxRecord) :
    0 ≤ calculate_leverage_risk transactions ∧
    calculate_leverage_risk transactions ≤ 1000 := by
  simp only [calculate_leverage_risk]
  split_ifs
  · norm_num
  · norm_num
  · exact ⟨le_min (by positivity) (by norm_num), min_le_right _ _⟩

theorem behavioral_bounds (transactions token_transactions : List TxRecord) :
    0 ≤ calculate_behavioral_risk transactions token_transactions ∧
    calculate_behavioral_risk transactions token_transactions ≤ 1000 := by
  constructor
  · simp only [calculate_behavioral_risk]
    split_ifs <;> norm_num
  · exact le_trans (behavioral_le_600 transactions token_transactions) (by norm_num)

theorem final_score_bounds (l v c le b : ℝ) :
    0 ≤ calculate_final_score l v c le b ∧ calculate_final_score l v c le b ≤ 1000 :=
  ⟨le_max_left _ _, max_le (by norm_num) (min_le_left _ _)⟩

/-- Counterexample to claim C3 as stated: value strings may parse to
infinity without raising (`float("1e400")`), and on two such
transactions the volatility calculator computes `np.std` of equal
infinities, which is NaN, divides it by the infinite mean, and returns
NaN through `min` — a value not within the interval from 0 to 1000
(every comparison with NaN is false). -/
theorem claim_C3_counterexample :
    calculate_volatility_risk_float
        [⟨some PyVal.pinf, some 100⟩, ⟨some PyVal.pinf, some 200⟩] = PyVal.nan ∧
    pyLe (PyVal.fin 0)
        (calculate_volatility_risk_float
          [⟨some PyVal.pinf, some 100⟩, ⟨some PyVal.pinf, some 200⟩]) = false := by
  have h : calculate_volatility_risk_float
      [⟨some PyVal.pinf, some 100⟩, ⟨some PyVal.pinf, some 200⟩] = PyVal.nan := by
    norm_num [calculate_volatility_risk_float, pyDiv, pyLt, pyMeanF, pyStdF, pySum, pyAdd,
      pySub, pyNeg, pyMul, pySqrt, pyMin, sortInts, insertSorted, adjacentDiffs,
      List.filterMap, List.foldl, List.isEmpty]
  refine ⟨h, ?_⟩
  rw [h]
  rfl

/-- Claim C3 as amended: for every pair of input lists whose value
fields carry finite parses (Python float overflow to infinity
excluded), each of the five sub-scores lies in the interval from 0 to
1000, and so does the composite. -/
theorem claim_C3_scores_in_range (transactions token_transactions : List TxRecord) :
    (0 ≤ calculate_liquidation_risk transactions token_transactions ∧
      calculate_liquidation_risk transactions token_transactions ≤ 1000) ∧
    (0 ≤ calculate_volatility_risk transactions ∧
      calculate_volatility_risk transactions ≤ 1000) ∧
    (0 ≤ calculate_concentration_risk token_transactions ∧
      calculate_concentration_risk token_transactions ≤ 1000) ∧
    (0 ≤ calculate_leverage_risk transactions ∧
      calculate_leverage_risk transactions ≤ 1000) ∧
    (0 ≤ calculate_behavioral_risk transactions token_transactions ∧
      calculate_behavioral_risk transactions token_transactions ≤ 1000) ∧
    (0 ≤ (calculate_wallet_risk_score transactions token_transactions).1 ∧
      (calculate_wallet_risk_score transactions token_transactions).1 ≤ 1000) :=
  ⟨liquidation_bounds transactions token_transactions,
   volatility_bounds transactions,
   concentration_bounds token_transactions,
   leverage_bounds transactions,
   behavioral_bounds transactions token_transactions,
   final_score_bounds _ _ _ _ _⟩
